import Mathlib

/-
Verification of the RoomConnectionManager session/signaling core
(src/electron-src/src/renderer/pages/Rooms/RoomConnectionManager.ts).

The class is embedded as a pure state machine: mutable instance fields
become a `MgrState` record, and every method or event handler becomes a
function `MgrState → inputs → MgrState × List Effect`, where `Effect`
records the observable side effects in program order (envelopes handed to
the WebSocket, application callbacks, console logging, installation of the
onnegotiationneeded handler).  Outcomes of the asynchronous WebRTC calls
(whether setRemoteDescription / createAnswer / ... throw, which transceiver
list the remote description yields, the produced SDP strings) are
environment inputs, passed in a `NegEnv` record.
-/

namespace BridgeWeb

/-! ### String classification

`handleTrack` classifies a remote stream id with `isValidUUID` (from the
uuid npm package) and `String.includes "screen"`.  Both are modelled on
`List Char`. -/

/-- Hexadecimal digit test, as used by the uuid format. -/
def isHexDigit (c : Char) : Bool :=
  (decide ('0' ≤ c) && decide (c ≤ '9')) ||
  (decide ('a' ≤ c) && decide (c ≤ 'f')) ||
  (decide ('A' ≤ c) && decide (c ≤ 'F'))

/-- Character-by-character check of the hyphenated 8-4-4-4-12 uuid layout,
starting at position `n`: hyphens at positions 8, 13, 18, 23, hex digits
everywhere else, 36 characters in total. -/
def uuidChars : List Char → Nat → Bool
  | [], n => n == 36
  | c :: cs, n =>
    (if n == 8 || n == 13 || n == 18 || n == 23 then c == '-' else isHexDigit c)
      && uuidChars cs (n + 1)

/-- Modelled from the uuid package (a dependency, not part of this
repository): `validate` accepts exactly the hyphenated 8-4-4-4-12
hexadecimal uuid format. -/
def isValidUUID (s : String) : Bool :=
  uuidChars s.toList 0

/-- `startsWithChars hay needle`: `needle` is an initial segment of `hay`. -/
def startsWithChars : List Char → List Char → Bool
  | _, [] => true
  | [], _ :: _ => false
  | c :: cs, d :: ds => c == d && startsWithChars cs ds

/-- `hasSubstr hay needle`: `needle` occurs contiguously inside `hay`
(the semantics of JavaScript String.prototype.includes). -/
def hasSubstr : List Char → List Char → Bool
  | [], needle => needle.isEmpty
  | c :: cs, needle => startsWithChars (c :: cs) needle || hasSubstr cs needle

/-- `remoteStream.id.includes "screen")` from handleTrack. -/
def containsScreen (s : String) : Bool :=
  hasSubstr s.toList "screen".toList

theorem startsWithChars_mem {hay needle : List Char}
    (h : startsWithChars hay needle = true) : ∀ c ∈ needle, c ∈ hay := by
  induction needle generalizing hay with
  | nil => intro c hc; cases hc
  | cons d ds ih =>
    cases hay with
    | nil => simp [startsWithChars] at h
    | cons e es =>
      simp only [startsWithChars, Bool.and_eq_true, beq_iff_eq] at h
      intro c hc
      rcases List.mem_cons.mp hc with rfl | hc
      · exact h.1 ▸ List.mem_cons_self e es
      · exact List.mem_cons_of_mem _ (ih h.2 c hc)

theorem hasSubstr_mem {hay needle : List Char}
    (h : hasSubstr hay needle = true) : ∀ c ∈ needle, c ∈ hay := by
  induction hay with
  | nil =>
    simp only [hasSubstr, List.isEmpty_iff] at h
    subst h; intro c hc; cases hc
  | cons e es ih =>
    simp only [hasSubstr, Bool.or_eq_true] at h
    rcases h with h | h
    · exact startsWithChars_mem h
    · exact fun c hc => List.mem_cons_of_mem _ (ih h c hc)

theorem uuidChars_mem {cs : List Char} {n : Nat}
    (h : uuidChars cs n = true) : ∀ c ∈ cs, c = '-' ∨ isHexDigit c = true := by
  induction cs generalizing n with
  | nil => intro c hc; cases hc
  | cons d ds ih =>
    simp only [uuidChars, Bool.and_eq_true] at h
    intro c hc
    rcases List.mem_cons.mp hc with rfl | hc
    · by_cases hn : (n == 8 || n == 13 || n == 18 || n == 23) = true
      · left
        have := h.1
        rw [if_pos hn] at this
        exact beq_iff_eq.mp this
      · right
        have := h.1
        rw [if_neg hn] at this
        exact this
    · exact ih h.2 c hc

/-- A stream id recognized as a screen stream (contains "screen") is never
a valid uuid: every character of a uuid is a hyphen or a hex digit, and
the letter s is neither. -/
theorem containsScreen_not_uuid {s : String}
    (h : containsScreen s = true) : isValidUUID s = false := by
  by_contra hne
  have huuid : isValidUUID s = true := by
    cases hv : isValidUUID s
    · exact absurd hv hne
    · rfl
  have hs : 's' ∈ s.toList :=
    hasSubstr_mem h 's' (by decide)
  have := uuidChars_mem huuid 's' hs
  rcases this with h1 | h1
  · exact absurd h1 (by decide)
  · exact absurd h1 (by decide)

/-! ### String-keyed maps

`pendingStreams` and `pendingScreenShareIds` are JavaScript `Map`s keyed
by stream id.  They are modelled as association lists with the exact
`Map.set` semantics (replace in place when the key exists, append
otherwise) and `Map.delete` / `Map.has` / `Map.get`. -/

/-- Association list standing for a JavaScript Map with String keys. -/
def MapS (v : Type) : Type := List (String × v)

instance (v : Type) [DecidableEq v] : DecidableEq (MapS v) :=
  inferInstanceAs (DecidableEq (List (String × v)))

instance (v : Type) : Inhabited (MapS v) := ⟨([] : List (String × v))⟩

instance (v : Type) [Repr v] : Repr (MapS v) :=
  inferInstanceAs (Repr (List (String × v)))

/-- The empty map (initial value of both pending buffers). -/
def MapS.empty (v : Type) : MapS v := ([] : List (String × v))

/-- `Map.prototype.get`: the value stored at `k`, if any. -/
def mget {v : Type} : MapS v → String → Option v
  | [], _ => none
  | (k', y) :: rest, k => if k' = k then some y else mget rest k

/-- `Map.prototype.has`. -/
def mhas {v : Type} (m : MapS v) (k : String) : Bool :=
  (mget m k).isSome

/-- `Map.prototype.set`: replace the entry for `k` in place, or append. -/
def mset {v : Type} : MapS v → String → v → MapS v
  | [], k, x => [(k, x)]
  | (k', y) :: rest, k, x =>
    if k' = k then (k, x) :: rest else (k', y) :: mset rest k x

/-- `Map.prototype.delete` (keys are unique, so removing every entry for
`k` agrees with removing the one entry). -/
def mdel {v : Type} : MapS v → String → MapS v
  | [], _ => []
  | (k', y) :: rest, k =>
    if k' = k then mdel rest k else (k', y) :: mdel rest k

theorem mget_mset_self {v : Type} (m : MapS v) (k : String) (x : v) :
    mget (mset m k x) k = some x := by
  induction m with
  | nil => simp [mset, mget]
  | cons p rest ih =>
    obtain ⟨k', y⟩ := p
    by_cases h : k' = k
    · simp [mset, mget, h]
    · simp [mset, mget, h, ih]

theorem mget_mset_ne {v : Type} (m : MapS v) (k k' : String) (x : v)
    (h : k' ≠ k) : mget (mset m k x) k' = mget m k' := by
  induction m with
  | nil =>
    simp only [mset, mget]
    rw [if_neg (Ne.symm h)]
  | cons p rest ih =>
    obtain ⟨k0, y⟩ := p
    simp only [mset]
    split_ifs with h0
    · simp only [mget]
      rw [if_neg (Ne.symm h), if_neg (fun hh : k0 = k' => (Ne.symm h) (h0 ▸ hh))]
    · simp only [mget]
      split_ifs with h1
      · rfl
      · exact ih

theorem mget_mdel_self {v : Type} (m : MapS v) (k : String) :
    mget (mdel m k) k = none := by
  induction m with
  | nil => simp [mdel, mget]
  | cons p rest ih =>
    obtain ⟨k', y⟩ := p
    by_cases h : k' = k
    · simp [mdel, h, ih]
    · simp [mdel, mget, h, ih]

theorem mget_mdel_ne {v : Type} (m : MapS v) (k k' : String)
    (h : k' ≠ k) : mget (mdel m k) k' = mget m k' := by
  induction m with
  | nil => simp [mdel]
  | cons p rest ih =>
    obtain ⟨k0, y⟩ := p
    simp only [mdel]
    split_ifs with h0
    · rw [ih]
      simp only [mget]
      rw [if_neg (fun hh : k0 = k' => (Ne.symm h) (h0 ▸ hh))]
    · simp only [mget]
      split_ifs with h1
      · rfl
      · exact ih

theorem mhas_iff_mget {v : Type} (m : MapS v) (k : String) :
    mhas m k = true ↔ ∃ x, mget m k = some x := by
  simp [mhas, Option.isSome_iff_exists]

theorem mhas_false_iff {v : Type} (m : MapS v) (k : String) :
    mhas m k = false ↔ mget m k = none := by
  cases h : mget m k <;> simp [mhas, h]

/-! ### Data model -/

/-- WebSocket readyState; `opened` stands for `WebSocket.OPEN`. -/
inductive ReadyState
  | connecting
  | opened
  | closing
  | closed
deriving DecidableEq, Repr

/-- Which function is currently assigned to `ws.onmessage`:
the pre-connect logger installed by `initSignalingConnection`, the live
`handleWsMessage` handler installed by `connect`, or the inactive logger
installed by `disconnect`. -/
inductive WsHandler
  | preConnectLogger
  | callActive
  | inactiveLogger
deriving DecidableEq, Repr

/-- The signaling WebSocket: its readyState and its message handler. -/
structure WsState where
  readyState : ReadyState
  onmessage : WsHandler
deriving DecidableEq, Repr

/-- RTCRtpTransceiverDirection values used by the code. -/
inductive TransDirection
  | sendrecv
  | sendonly
  | recvonly
  | inactive
deriving DecidableEq, Repr

/-- One transceiver of the peer connection: its direction and the track
currently attached to its sender (tracks are identified by name). -/
structure Transceiver where
  direction : TransDirection
  senderTrack : Option String
deriving DecidableEq, Repr

/-- The RTCPeerConnection as far as the manager observes it. -/
structure PcState where
  transceivers : List Transceiver
  localDescription : Option String
  remoteDescription : Option String
  negotiationHandlerInstalled : Bool
  iceCandidates : List String
deriving DecidableEq, Repr

/-- A remote MediaStream: its id and its video/audio track lists. -/
structure MediaStream where
  id : String
  videoTracks : List String
  audioTracks : List String
deriving DecidableEq, Repr

/-- CallStatus values the manager reports (types file not in src; the
manager only ever reports these two). -/
inductive CallStatus
  | active
  | inactive
deriving DecidableEq, Repr

/-- The mutable instance fields of RoomConnectionManager. -/
structure MgrState where
  ws : Option WsState
  pc : Option PcState
  roomId : String
  clientId : String
  userName : String
  screenShareVideoTransceiver : Option Nat
  screenShareAudioTransceiver : Option Nat
  exited : Bool
  pendingStreams : MapS MediaStream
  pendingScreenShareIds : MapS String
deriving DecidableEq, Repr

/-- One outbound envelope as built by sendMessage.  The payload is the
JSON object, a list of field-name/value pairs. -/
structure SignalMessage where
  type : String
  clientId : String
  roomId : String
  payload : List (String × String)
deriving DecidableEq, Repr

/-- An invocation of one of the RoomConnectionManagerCallbacks. -/
inductive Callback
  | onStatusChange (status : CallStatus)
  | onRemoteStream (stream : MediaStream)
  | onRemoteStreamStopped
  | onPeerExit (peerId : String) (peerName : String)
  | onPeerScreenShare (peerId : String) (stream : MediaStream)
  | onPeerScreenShareStopped (peerId : String)
  | onError (message : String)
deriving DecidableEq, Repr

/-- Observable side effects, in program order: an envelope handed to
`ws.send`, a callback invocation, a console log line (abbreviated), or
the assignment `pc.onnegotiationneeded = handleNegotiationNeeded`. -/
inductive Effect
  | send (msg : SignalMessage)
  | callback (cb : Callback)
  | log (line : String)
  | setNegotiationHandler
deriving DecidableEq, Repr

/-- Outcomes of the asynchronous WebRTC calls, supplied by the
environment: which of setRemoteDescription / createAnswer /
setLocalDescription / addIceCandidate / createOffer throw, the
transceiver list `pc.getTransceivers()` returns after the remote offer is
applied, and the SDP strings createAnswer / createOffer produce. -/
structure NegEnv where
  setRemoteThrows : Bool
  transceiversAfterOffer : List Transceiver
  createAnswerThrows : Bool
  answerSdp : String
  setLocalThrows : Bool
  addIceThrows : Bool
  createOfferThrows : Bool
  offerSdp : String
deriving DecidableEq, Repr

/-- An inbound signaling message after JSON parsing, by message type
(the unchecked `as`-casts of the source become typed payload fields). -/
inductive WsMsgIn
  | offer (sdp : String)
  | answer (sdp : String)
  | candidate (c : String)
  | peerExit (peerId : String) (peerName : String)
  | peerScreenShare (streamId : String) (peerId : String)
  | peerScreenShareStop (peerId : String)
  | unknown (t : String)
deriving DecidableEq, Repr

/-! ### Operations

Each method of the class, translated line by line.  Routine trace logging
of whole parsed messages is not modelled; console.warn / console.error
lines and the logs that claims mention are kept (with shortened text). -/

/-- `sendMessage(type, payload)`: drop with a console.error when the
WebSocket is absent or not open, otherwise emit the envelope with the
session clientId and roomId.  (`ws.send` itself is modelled as not
throwing; its try/catch only logs.) -/
def sendMessage (st : MgrState) (type : String)
    (payload : List (String × String)) : List Effect :=
  match st.ws with
  | none => [Effect.log "Cannot send message, WebSocket is not available"]
  | some w =>
    if w.readyState = ReadyState.opened then
      [Effect.send { type := type, clientId := st.clientId,
                     roomId := st.roomId, payload := payload }]
    else
      [Effect.log "Cannot send message, WebSocket is not available"]

/-- `initSignalingConnection()`: create the WebSocket (it starts in the
connecting state), set `exited = true`, install the pre-connect logger. -/
def initSignalingConnection (st : MgrState) : MgrState :=
  { st with
    ws := some { readyState := ReadyState.connecting,
                 onmessage := WsHandler.preConnectLogger },
    exited := true }

/-- The `ws.onopen` transition of the environment: the transport finishes
opening. -/
def wsBecomesOpen (st : MgrState) : MgrState :=
  match st.ws with
  | none => st
  | some w => { st with ws := some { w with readyState := ReadyState.opened } }

/-- `disconnect()`: no-op when `exited` is already set; otherwise set
`exited`, send the `exit` envelope when the channel is open, swap
`ws.onmessage` to the inactive logger, drop all peer-connection handlers,
close and null `pc`, and fire the inactive-status and
remote-stream-stopped callbacks.  It never touches `ws` beyond the
`onmessage` swap. -/
def disconnect (st : MgrState) : MgrState × List Effect :=
  if st.exited then
    (st, [])
  else
    let st1 := { st with exited := true }
    let exitEffs :=
      match st1.ws with
      | some w =>
        if w.readyState = ReadyState.opened then
          sendMessage st1 "exit" [("peerName", st1.userName)]
        else []
      | none => []
    let st2 :=
      match st1.ws with
      | some w =>
        { st1 with ws := some { w with onmessage := WsHandler.inactiveLogger } }
      | none => st1
    let st3 := { st2 with pc := none }
    (st3,
     Effect.log "Disconnecting..." :: exitEffs
       ++ [Effect.callback (Callback.onStatusChange CallStatus.inactive),
           Effect.callback Callback.onRemoteStreamStopped])

/-- `connect(localStream)`: error out (atomically) when the signaling
channel is absent or not open; otherwise clear `exited`, build the
RTCPeerConnection, add the camera video and audio tracks, install the
live message handler and send the `join` envelope.  When the stream lacks
a video or audio track, `addTrack(undefined)` throws and the catch block
reports the error and disconnects. -/
def connect (st : MgrState) (localStream : MediaStream) : MgrState × List Effect :=
  match st.ws with
  | none => (st, [Effect.callback (Callback.onError "Signaling server not connected")])
  | some w =>
    if w.readyState ≠ ReadyState.opened then
      (st, [Effect.callback (Callback.onError "Signaling server not connected")])
    else
      let st1 := { st with exited := false }
      match localStream.videoTracks.head? with
      | none =>
        -- the first addTrack throws; pc was created with no tracks yet
        let stt := { st1 with
          pc := some { transceivers := [], localDescription := none,
                       remoteDescription := none,
                       negotiationHandlerInstalled := false, iceCandidates := [] } }
        let r := disconnect stt
        (r.1, Effect.callback (Callback.onError "Failed to start call") :: r.2)
      | some vTrack =>
        match localStream.audioTracks.head? with
        | none =>
          -- the second addTrack throws
          let stt := { st1 with
            pc := some { transceivers :=
                           [{ direction := TransDirection.sendrecv,
                              senderTrack := some vTrack }],
                         localDescription := none, remoteDescription := none,
                         negotiationHandlerInstalled := false, iceCandidates := [] } }
          let r := disconnect stt
          (r.1, Effect.callback (Callback.onError "Failed to start call") :: r.2)
        | some aTrack =>
          let pcNew : PcState :=
            { transceivers :=
                [{ direction := TransDirection.sendrecv, senderTrack := some vTrack },
                 { direction := TransDirection.sendrecv, senderTrack := some aTrack }],
              localDescription := none, remoteDescription := none,
              negotiationHandlerInstalled := false, iceCandidates := [] }
          let st2 := { st1 with
            pc := some pcNew,
            ws := some { w with onmessage := WsHandler.callActive } }
          (st2, sendMessage st2 "join" [("name", st2.userName)])

/-- Replace the direction of the transceiver at index `i`. -/
def setDirectionAt : List Transceiver → Nat → TransDirection → List Transceiver
  | [], _, _ => []
  | tr :: rest, 0, d => { tr with direction := d } :: rest
  | tr :: rest, Nat.succ i, d => tr :: setDirectionAt rest i d

/-- Replace the sender track of the transceiver at index `i`
(`transceiver.sender.replaceTrack`). -/
def setSenderTrackAt : List Transceiver → Nat → Option String → List Transceiver
  | [], _, _ => []
  | tr :: rest, 0, t => { tr with senderTrack := t } :: rest
  | tr :: rest, Nat.succ i, t => tr :: setSenderTrackAt rest i t

/-- `startScreenShare(stream)`: bail out with a console.error when no
screen-share video transceiver was stored; otherwise replace that
transceiver's sender track with the first video track of the stream,
best-effort apply the encoder preference (its try/catch only logs), and
send the `screenShareRequest` envelope.  `paramsFail` is the environment
outcome of `sender.getParameters`/`setParameters`. -/
def startScreenShare (st : MgrState) (stream : MediaStream)
    (paramsFail : Bool) : MgrState × List Effect :=
  match st.screenShareVideoTransceiver with
  | none => (st, [Effect.log "No screen share video transceiver available"])
  | some i =>
    let screenTrack := stream.videoTracks.head?
    let st1 :=
      match st.pc with
      | some p =>
        { st with pc := some { p with transceivers := setSenderTrackAt p.transceivers i screenTrack } }
      | none => st
    let paramEff :=
      if paramsFail then Effect.log "Failed to get screen share encoding parameters"
      else Effect.log "Screen share configured for high resolution"
    (st1, paramEff :: sendMessage st1 "screenShareRequest" [])

/-- `stopScreenShare(streamId)`: send the `peerScreenShareStop` envelope;
its payload object has the single field named streamId holding the given
id, and nothing else happens. -/
def stopScreenShare (st : MgrState) (streamId : String) : MgrState × List Effect :=
  (st, sendMessage st "peerScreenShareStop" [("streamId", streamId)])

/-- `handleIceCandidate(event)`: forward a discovered candidate, or log
when the event carries none. -/
def handleIceCandidate (st : MgrState) (candidate : Option String) :
    MgrState × List Effect :=
  match candidate with
  | some c => (st, sendMessage st "candidate" [("candidate", c)])
  | none => (st, [Effect.log "Received invalid ICE candidate event"])

/-- `handleTrack(event)`: log, take the first stream of the event (return
early when there is none), correlate or buffer it by its id, then request
a keyframe with a `pli` envelope. -/
def handleTrack (st : MgrState) (streams : List MediaStream) :
    MgrState × List Effect :=
  match streams.head? with
  | none => (st, [Effect.log "Received remote track event"])
  | some remoteStream =>
    let r :=
      match mget st.pendingScreenShareIds remoteStream.id with
      | some peerId =>
        ({ st with pendingScreenShareIds := mdel st.pendingScreenShareIds remoteStream.id },
         [Effect.callback (Callback.onPeerScreenShare peerId remoteStream)])
      | none =>
        if isValidUUID remoteStream.id then
          (st, [Effect.callback (Callback.onRemoteStream remoteStream)])
        else if containsScreen remoteStream.id then
          ({ st with pendingStreams := mset st.pendingStreams remoteStream.id remoteStream },
           ([] : List Effect))
        else
          (st, [Effect.log "Received remote stream with unrecognized ID"])
    (r.1, Effect.log "Received remote track event" :: r.2 ++ sendMessage r.1 "pli" [])

/-- `handleNegotiationNeeded()`: return when `pc` is null; create and set
a local offer and send it; its catch block only logs. -/
def handleNegotiationNeeded (st : MgrState) (env : NegEnv) :
    MgrState × List Effect :=
  match st.pc with
  | none => (st, [])
  | some p =>
    if env.createOfferThrows then
      (st, [Effect.log "Error during negotiationneeded handling"])
    else if env.setLocalThrows then
      (st, [Effect.log "Error during negotiationneeded handling"])
    else
      let p1 := { p with localDescription := some env.offerSdp }
      let st1 := { st with pc := some p1 }
      (st1, sendMessage st1 "offer" [("type", "offer"), ("sdp", env.offerSdp)])

/-- The `offer` case of handleWsMessage: apply the remote description,
store/mark the screen-share transceivers when at least 4 are present
(indices 3 then 2 are set sendonly, as in the source), create, set and
send the answer, and only then install the onnegotiationneeded handler.
A throw at any awaited step jumps to the catch block, which only logs. -/
def handleOffer (st : MgrState) (p : PcState) (sdp : String) (env : NegEnv) :
    MgrState × List Effect :=
  if env.setRemoteThrows then
    (st, [Effect.log "Error in WS message handler"])
  else
    let p1 := { p with remoteDescription := some sdp,
                       transceivers := env.transceiversAfterOffer }
    let r1 :=
      if env.transceiversAfterOffer.length ≥ 4 then
        let marked :=
          setDirectionAt (setDirectionAt p1.transceivers 3 TransDirection.sendonly)
            2 TransDirection.sendonly
        let p2 := { p1 with transceivers := marked }
        let stA : MgrState :=
          { st with pc := some p2,
                    screenShareVideoTransceiver := some 2,
                    screenShareAudioTransceiver := some 3 }
        (stA, p2, ([] : List Effect))
      else
        let stB : MgrState := { st with pc := some p1 }
        (stB, p1,
         [Effect.log "Expected at least 4 transceivers, no screen share transceivers stored"])
    let st1 := r1.1
    let p2 := r1.2.1
    let warnEffs := r1.2.2
    if env.createAnswerThrows then
      (st1, warnEffs ++ [Effect.log "Error in WS message handler"])
    else if env.setLocalThrows then
      (st1, warnEffs ++ [Effect.log "Error in WS message handler"])
    else
      let p3 := { p2 with localDescription := some env.answerSdp }
      let st2 := { st1 with pc := some p3 }
      let sendEffs := sendMessage st2 "answer" [("type", "answer"), ("sdp", env.answerSdp)]
      let p4 := { p3 with negotiationHandlerInstalled := true }
      ({ st2 with pc := some p4 }, warnEffs ++ sendEffs ++ [Effect.setNegotiationHandler])

/-- `handleWsMessage(event)`: return when `pc` is null, then dispatch on
the message type.  Every `await` that throws lands in the catch block,
which only logs. -/
def handleWsMessage (st : MgrState) (msg : WsMsgIn) (env : NegEnv) :
    MgrState × List Effect :=
  match st.pc with
  | none => (st, [])
  | some p =>
    match msg with
    | WsMsgIn.offer sdp => handleOffer st p sdp env
    | WsMsgIn.answer sdp =>
      if env.setRemoteThrows then
        (st, [Effect.log "Error in WS message handler"])
      else
        ({ st with pc := some { p with remoteDescription := some sdp } }, [])
    | WsMsgIn.candidate c =>
      if env.addIceThrows then
        (st, [Effect.log "Error in WS message handler"])
      else
        ({ st with pc := some { p with iceCandidates := p.iceCandidates ++ [c] } }, [])
    | WsMsgIn.peerExit peerId peerName =>
      (st, [Effect.callback (Callback.onPeerExit peerId peerName),
            Effect.callback Callback.onRemoteStreamStopped])
    | WsMsgIn.peerScreenShare streamId peerId =>
      match mget st.pendingStreams streamId with
      | some screenStream =>
        ({ st with pendingStreams := mdel st.pendingStreams streamId },
         [Effect.callback (Callback.onPeerScreenShare peerId screenStream)])
      | none =>
        ({ st with pendingScreenShareIds := mset st.pendingScreenShareIds streamId peerId },
         [])
    | WsMsgIn.peerScreenShareStop peerId =>
      if mhas st.pendingStreams peerId then
        ({ st with pendingStreams := mdel st.pendingStreams peerId }, [])
      else if mhas st.pendingScreenShareIds peerId then
        ({ st with pendingScreenShareIds := mdel st.pendingScreenShareIds peerId }, [])
      else
        (st, [Effect.callback (Callback.onPeerScreenShareStopped peerId)])
    | WsMsgIn.unknown _ => (st, [Effect.log "Unhandled WS message type"])

/-- `cleanup()`: disconnect (idempotent), then drop the onclose handler,
close the WebSocket and null it. -/
def cleanup (st : MgrState) : MgrState × List Effect :=
  let r := disconnect st
  ({ r.1 with ws := none }, r.2)

/-! ### Observations over effect traces -/

/-- The envelopes handed to the transport, in order. -/
def sentMessages (effs : List Effect) : List SignalMessage :=
  effs.filterMap fun e =>
    match e with
    | Effect.send m => some m
    | _ => none

/-- The callbacks fired, in order. -/
def firedCallbacks (effs : List Effect) : List Callback :=
  effs.filterMap fun e =>
    match e with
    | Effect.callback c => some c
    | _ => none

/-- The (peerId, stream) pairs passed to onPeerScreenShare, in order. -/
def screenShareFires (effs : List Effect) : List (String × MediaStream) :=
  effs.filterMap fun e =>
    match e with
    | Effect.callback (Callback.onPeerScreenShare p s) => some (p, s)
    | _ => none

/-- Whether an effect is a console log line. -/
def isLogEffect (e : Effect) : Bool :=
  match e with
  | Effect.log _ => true
  | _ => false

/-! ### Inbound event sequences -/

/-- One inbound network event: a remote track event (with the streams it
carries) or a parsed signaling message (with the environment outcomes of
the WebRTC calls its handling performs). -/
inductive InboundEvent
  | track (streams : List MediaStream)
  | ws (msg : WsMsgIn) (env : NegEnv)
deriving DecidableEq, Repr

/-- Dispatch one inbound event to its handler. -/
def stepInbound (st : MgrState) (e : InboundEvent) : MgrState × List Effect :=
  match e with
  | InboundEvent.track streams => handleTrack st streams
  | InboundEvent.ws msg env => handleWsMessage st msg env

/-- The state after a sequence of inbound events. -/
def runInbound (st : MgrState) (es : List InboundEvent) : MgrState :=
  es.foldl (fun s e => (stepInbound s e).1) st

/-- A streamId is a key of at most one of the two pending buffers. -/
def BuffersDisjoint (st : MgrState) : Prop :=
  ∀ id, mget st.pendingStreams id = none ∨ mget st.pendingScreenShareIds id = none

/-! ### Sample concrete values (used by witnesses and counterexamples) -/

/-- A freshly created peer connection with no tracks. -/
def pcEmpty : PcState :=
  { transceivers := [], localDescription := none, remoteDescription := none,
    negotiationHandlerInstalled := false, iceCandidates := [] }

/-- An open signaling channel with the live message handler. -/
def wsLive : WsState :=
  { readyState := ReadyState.opened, onmessage := WsHandler.callActive }

/-- A connected session: open channel, live peer connection, empty
buffers, no stored screen-share transceivers. -/
def sampleState : MgrState :=
  { ws := some wsLive, pc := some pcEmpty,
    roomId := "room1", clientId := "client1", userName := "alice",
    screenShareVideoTransceiver := none, screenShareAudioTransceiver := none,
    exited := false,
    pendingStreams := MapS.empty MediaStream,
    pendingScreenShareIds := MapS.empty String }

/-- The sample state with no WebSocket at all. -/
def sampleStateNoWs : MgrState := { sampleState with ws := none }

/-- A remote screen stream. -/
def sampleScreenStream : MediaStream :=
  { id := "screen-abc", videoTracks := ["vTrack1"], audioTracks := [] }

/-- A local camera stream with one video and one audio track. -/
def sampleLocalStream : MediaStream :=
  { id := "local", videoTracks := ["camV"], audioTracks := ["camA"] }

/-- An environment in which no WebRTC call throws. -/
def envOk : NegEnv :=
  { setRemoteThrows := false, transceiversAfterOffer := [],
    createAnswerThrows := false, answerSdp := "ansSdp",
    setLocalThrows := false, addIceThrows := false,
    createOfferThrows := false, offerSdp := "offSdp" }

/-- An environment in which setRemoteDescription throws. -/
def envRemoteThrows : NegEnv := { envOk with setRemoteThrows := true }

/-- A four-transceiver list as the relay presents it after an offer. -/
def fourTransceivers : List Transceiver :=
  [{ direction := TransDirection.sendrecv, senderTrack := some "camV" },
   { direction := TransDirection.sendrecv, senderTrack := some "camA" },
   { direction := TransDirection.recvonly, senderTrack := none },
   { direction := TransDirection.recvonly, senderTrack := none }]

/-- The no-throw environment presenting four transceivers. -/
def envFour : NegEnv := { envOk with transceiversAfterOffer := fourTransceivers }

/-! ### Basic trace lemmas -/

@[simp] theorem firedCallbacks_nil : firedCallbacks [] = [] := rfl

@[simp] theorem firedCallbacks_cons_send (m : SignalMessage) (l : List Effect) :
    firedCallbacks (Effect.send m :: l) = firedCallbacks l := rfl

@[simp] theorem firedCallbacks_cons_callback (c : Callback) (l : List Effect) :
    firedCallbacks (Effect.callback c :: l) = c :: firedCallbacks l := rfl

@[simp] theorem firedCallbacks_cons_log (s : String) (l : List Effect) :
    firedCallbacks (Effect.log s :: l) = firedCallbacks l := rfl

@[simp] theorem firedCallbacks_cons_setHandler (l : List Effect) :
    firedCallbacks (Effect.setNegotiationHandler :: l) = firedCallbacks l := rfl

@[simp] theorem firedCallbacks_append (l1 l2 : List Effect) :
    firedCallbacks (l1 ++ l2) = firedCallbacks l1 ++ firedCallbacks l2 := by
  simp [firedCallbacks]

@[simp] theorem sentMessages_nil : sentMessages [] = [] := rfl

@[simp] theorem sentMessages_cons_send (m : SignalMessage) (l : List Effect) :
    sentMessages (Effect.send m :: l) = m :: sentMessages l := rfl

@[simp] theorem sentMessages_cons_callback (c : Callback) (l : List Effect) :
    sentMessages (Effect.callback c :: l) = sentMessages l := rfl

@[simp] theorem sentMessages_cons_log (s : String) (l : List Effect) :
    sentMessages (Effect.log s :: l) = sentMessages l := rfl

@[simp] theorem sentMessages_cons_setHandler (l : List Effect) :
    sentMessages (Effect.setNegotiationHandler :: l) = sentMessages l := rfl

@[simp] theorem sentMessages_append (l1 l2 : List Effect) :
    sentMessages (l1 ++ l2) = sentMessages l1 ++ sentMessages l2 := by
  simp [sentMessages]

@[simp] theorem screenShareFires_nil : screenShareFires [] = [] := rfl

@[simp] theorem screenShareFires_cons_send (m : SignalMessage) (l : List Effect) :
    screenShareFires (Effect.send m :: l) = screenShareFires l := rfl

@[simp] theorem screenShareFires_cons_log (s : String) (l : List Effect) :
    screenShareFires (Effect.log s :: l) = screenShareFires l := rfl

@[simp] theorem screenShareFires_cons_setHandler (l : List Effect) :
    screenShareFires (Effect.setNegotiationHandler :: l) = screenShareFires l := rfl

@[simp] theorem screenShareFires_cons_share (q : String) (s : MediaStream) (l : List Effect) :
    screenShareFires (Effect.callback (Callback.onPeerScreenShare q s) :: l)
      = (q, s) :: screenShareFires l := rfl

@[simp] theorem screenShareFires_append (l1 l2 : List Effect) :
    screenShareFires (l1 ++ l2) = screenShareFires l1 ++ screenShareFires l2 := by
  simp [screenShareFires]

/-- Effects produced by sendMessage are never callbacks. -/
theorem firedCallbacks_sendMessage (st : MgrState) (t : String)
    (pl : List (String × String)) : firedCallbacks (sendMessage st t pl) = [] := by
  unfold sendMessage
  cases st.ws with
  | none => rfl
  | some w =>
    by_cases h : w.readyState = ReadyState.opened <;> simp [h]

/-- Effects produced by sendMessage never invoke onPeerScreenShare. -/
theorem screenShareFires_sendMessage (st : MgrState) (t : String)
    (pl : List (String × String)) : screenShareFires (sendMessage st t pl) = [] := by
  unfold sendMessage
  cases st.ws with
  | none => rfl
  | some w =>
    by_cases h : w.readyState = ReadyState.opened <;> simp [h]

/-! ### disconnect: basic facts -/

/-- disconnect of an already-exited manager is a complete no-op. -/
theorem disconnect_of_exited (st : MgrState) (h : st.exited = true) :
    disconnect st = (st, ([] : List Effect)) := by
  simp [disconnect, h]

/-- disconnect always leaves the exited flag set. -/
theorem disconnect_exited (st : MgrState) : (disconnect st).1.exited = true := by
  by_cases h : st.exited
  · rw [disconnect_of_exited st h]; exact h
  · simp only [disconnect, if_neg h]
    cases hw : st.ws <;> simp [hw]

/-- disconnect preserves the presence and readyState of the WebSocket. -/
theorem disconnect_ws_readyState (st : MgrState) :
    Option.map WsState.readyState (disconnect st).1.ws
      = Option.map WsState.readyState st.ws := by
  by_cases h : st.exited
  · rw [disconnect_of_exited st h]
  · simp only [disconnect, if_neg h]
    cases hw : st.ws <;> simp [hw]

/-- disconnect never fires onError. -/
theorem disconnect_no_onError (st : MgrState) (m : String) :
    Callback.onError m ∉ firedCallbacks (disconnect st).2 := by
  by_cases h : st.exited
  · rw [disconnect_of_exited st h]; simp
  · simp only [disconnect, if_neg h]
    cases hw : st.ws with
    | none => simp
    | some w =>
      by_cases hr : w.readyState = ReadyState.opened <;>
        simp [hw, hr, sendMessage, firedCallbacks]

/-- connect never fires the transport-precondition error when the channel
is open: the only onError its catch block can fire is the
start-call failure. -/
theorem connect_no_transport_error (st : MgrState) (w : WsState) (ms : MediaStream)
    (hw : st.ws = some w) (hopen : w.readyState = ReadyState.opened) :
    Callback.onError "Signaling server not connected"
      ∉ firedCallbacks (connect st ms).2 := by
  simp only [connect, hw]
  rw [if_neg (by simp [hopen])]
  cases hv : ms.videoTracks.head? with
  | none =>
    simp only [firedCallbacks_cons_callback]
    intro hmem
    rcases List.mem_cons.mp hmem with h | h
    · exact absurd (Callback.onError.inj h) (by decide)
    · exact disconnect_no_onError _ _ h
  | some vt =>
    cases ha : ms.audioTracks.head? with
    | none =>
      simp only [firedCallbacks_cons_callback]
      intro hmem
      rcases List.mem_cons.mp hmem with h | h
      · exact absurd (Callback.onError.inj h) (by decide)
      · exact disconnect_no_onError _ _ h
    | some atr =>
      rw [firedCallbacks_sendMessage]
      simp

/-! ### Claim theorems -/

/-- C3: disconnect() is idempotent.  For every state, a second
consecutive disconnect() leaves the state of the first call unchanged and
produces no effect at all (so the combined observable side effects of two
calls equal those of one), and a call made while the exited flag is
already set returns immediately: same state, no envelope, no callback. -/
theorem claim_C3_disconnect_idempotent (st : MgrState) :
    disconnect (disconnect st).1 = ((disconnect st).1, ([] : List Effect))
    ∧ (st.exited = true → disconnect st = (st, ([] : List Effect))) :=
  ⟨disconnect_of_exited _ (disconnect_exited st), disconnect_of_exited st⟩

/-- Witness for C3 at a concrete exited state. -/
theorem claim_C3_witness :
    ({ sampleState with exited := true } : MgrState).exited = true
    ∧ disconnect { sampleState with exited := true }
        = ({ sampleState with exited := true }, ([] : List Effect)) :=
  ⟨rfl, (claim_C3_disconnect_idempotent { sampleState with exited := true }).2 rfl⟩

/-- C4: disconnect() preserves the signaling channel: the WebSocket is
neither closed nor nulled (presence and readyState are unchanged), and
from any state whose channel is open, connect() run after disconnect()
never takes the transport-precondition error path. -/
theorem claim_C4_disconnect_preserves_ws (st : MgrState) :
    Option.map WsState.readyState (disconnect st).1.ws
      = Option.map WsState.readyState st.ws
    ∧ (∀ w ms, st.ws = some w → w.readyState = ReadyState.opened →
        Callback.onError "Signaling server not connected"
          ∉ firedCallbacks (connect (disconnect st).1 ms).2) := by
  refine ⟨disconnect_ws_readyState st, fun w ms hw hopen => ?_⟩
  have hmap := disconnect_ws_readyState st
  rw [hw] at hmap
  cases hw' : (disconnect st).1.ws with
  | none => rw [hw'] at hmap; simp at hmap
  | some w' =>
    rw [hw'] at hmap
    have heq : w'.readyState = w.readyState := by simpa using hmap
    exact connect_no_transport_error _ w' ms hw' (heq.trans hopen)

/-- Witness for C4 at a concrete connected state. -/
theorem claim_C4_witness :
    sampleState.ws = some wsLive
    ∧ wsLive.readyState = ReadyState.opened
    ∧ Callback.onError "Signaling server not connected"
        ∉ firedCallbacks (connect (disconnect sampleState).1 sampleLocalStream).2 :=
  ⟨rfl, rfl,
   (claim_C4_disconnect_preserves_ws sampleState).2 wsLive sampleLocalStream rfl rfl⟩

/-- C9 (code evaluated at the failing input): stopScreenShare(id) sends
exactly one peerScreenShareStop envelope and changes nothing else, but
its payload carries the id under a field named streamId, not under the
peerId field that the spec, the inbound handler of the same file and the
caller all use. -/
theorem claim_C9_stop_payload_field :
    stopScreenShare sampleState "stream-42"
      = (sampleState,
         [Effect.send { type := "peerScreenShareStop", clientId := "client1",
                        roomId := "room1",
                        payload := [("streamId", "stream-42")] }]) := rfl

/-- C10: connect() called while the signaling channel is absent or not
open fires onError and changes nothing: the returned state is exactly the
input state (no peer connection, exited keeps its prior value, buffers
untouched) and the only effect is the error callback — no envelope. -/
theorem claim_C10_connect_guard_atomic (st : MgrState) (ms : MediaStream)
    (h : st.ws = none ∨ ∃ w, st.ws = some w ∧ w.readyState ≠ ReadyState.opened) :
    connect st ms
      = (st, [Effect.callback (Callback.onError "Signaling server not connected")]) := by
  rcases h with h | ⟨w, hw, hr⟩
  · simp [connect, h]
  · simp [connect, hw, hr]

/-- Witness for C10 with the WebSocket absent. -/
theorem claim_C10_witness :
    sampleStateNoWs.ws = none
    ∧ connect sampleStateNoWs sampleLocalStream
        = (sampleStateNoWs,
           [Effect.callback (Callback.onError "Signaling server not connected")]) :=
  ⟨rfl, claim_C10_connect_guard_atomic sampleStateNoWs sampleLocalStream (Or.inl rfl)⟩

/-- C7 counterexample: with the connection and channel live, an exception
in setRemoteDescription while handling an offer is merely logged: no
callback fires (in particular not onError), the exited flag stays false
and the peer connection is still there — disconnect() did not run.  This
refutes the claim that negotiation exceptions are reported via onError
and force a disconnect. -/
theorem claim_C7_counterexample :
    firedCallbacks (handleWsMessage sampleState (WsMsgIn.offer "sdp0") envRemoteThrows).2 = []
    ∧ (handleWsMessage sampleState (WsMsgIn.offer "sdp0") envRemoteThrows).1.exited = false
    ∧ (handleWsMessage sampleState (WsMsgIn.offer "sdp0") envRemoteThrows).1.pc = some pcEmpty
    ∧ (handleWsMessage sampleState (WsMsgIn.offer "sdp0") envRemoteThrows).1.ws = some wsLive :=
  ⟨rfl, rfl, rfl, rfl⟩

/-- Which awaited step of handleWsMessage throws for a given message, per
the source: offer handling awaits setRemoteDescription, createAnswer and
setLocalDescription; answer handling awaits setRemoteDescription;
candidate handling awaits addIceCandidate. -/
def wsHandlerThrows (msg : WsMsgIn) (env : NegEnv) : Bool :=
  match msg with
  | WsMsgIn.offer _ => env.setRemoteThrows || env.createAnswerThrows || env.setLocalThrows
  | WsMsgIn.answer _ => env.setRemoteThrows
  | WsMsgIn.candidate _ => env.addIceThrows
  | _ => false

/-- C7 as amended: an exception raised during offer/answer/description
handling (any awaited step of handleWsMessage, or of
handleNegotiationNeeded) is caught and only logged: no callback fires (in
particular onError does not), no envelope is sent, the exited flag, the
pending buffers and the signaling channel are untouched, and the peer
connection is not torn down — disconnect() does not run. -/
theorem claim_C7_amended_negotiation_errors_logged
    (st : MgrState) (p : PcState) (msg : WsMsgIn) (env env2 : NegEnv)
    (hpc : st.pc = some p) :
    (wsHandlerThrows msg env = true →
      firedCallbacks (handleWsMessage st msg env).2 = []
      ∧ sentMessages (handleWsMessage st msg env).2 = []
      ∧ (handleWsMessage st msg env).2.all isLogEffect = true
      ∧ (handleWsMessage st msg env).1.exited = st.exited
      ∧ (handleWsMessage st msg env).1.pc.isSome = true
      ∧ (handleWsMessage st msg env).1.ws = st.ws
      ∧ (handleWsMessage st msg env).1.pendingStreams = st.pendingStreams
      ∧ (handleWsMessage st msg env).1.pendingScreenShareIds = st.pendingScreenShareIds)
    ∧ ((env2.createOfferThrows || env2.setLocalThrows) = true →
      firedCallbacks (handleNegotiationNeeded st env2).2 = []
      ∧ sentMessages (handleNegotiationNeeded st env2).2 = []
      ∧ (handleNegotiationNeeded st env2).2.all isLogEffect = true
      ∧ (handleNegotiationNeeded st env2).1 = st) := by
  constructor
  · intro hthrow
    cases msg with
    | offer sdp =>
      by_cases h1 : env.setRemoteThrows
      · simp [handleWsMessage, handleOffer, hpc, h1, isLogEffect]
      · simp only [wsHandlerThrows, h1, Bool.false_or, Bool.or_eq_true] at hthrow
        rcases hthrow with h2 | h3
        · by_cases h4 : env.transceiversAfterOffer.length ≥ 4 <;>
            simp [handleWsMessage, handleOffer, hpc, h1, h2, h4, isLogEffect]
        · by_cases h2 : env.createAnswerThrows <;>
            by_cases h4 : env.transceiversAfterOffer.length ≥ 4 <;>
              simp [handleWsMessage, handleOffer, hpc, h1, h2, h3, h4, isLogEffect]
    | answer sdp =>
      simp only [wsHandlerThrows] at hthrow
      simp [handleWsMessage, hpc, hthrow, isLogEffect]
    | candidate c =>
      simp only [wsHandlerThrows] at hthrow
      simp [handleWsMessage, hpc, hthrow, isLogEffect]
    | peerExit peerId peerName => simp [wsHandlerThrows] at hthrow
    | peerScreenShare streamId peerId => simp [wsHandlerThrows] at hthrow
    | peerScreenShareStop peerId => simp [wsHandlerThrows] at hthrow
    | unknown t => simp [wsHandlerThrows] at hthrow
  · intro hthrow
    rcases Bool.or_eq_true_iff.mp hthrow with h1 | h2
    · simp [handleNegotiationNeeded, hpc, h1, isLogEffect]
    · by_cases h1 : env2.createOfferThrows <;>
        simp [handleNegotiationNeeded, hpc, h1, h2, isLogEffect]

/-- Witness for the amended C7 at a concrete throwing offer. -/
theorem claim_C7_witness :
    wsHandlerThrows (WsMsgIn.offer "sdp0") envRemoteThrows = true
    ∧ firedCallbacks (handleWsMessage sampleState (WsMsgIn.offer "sdp0") envRemoteThrows).2 = []
    ∧ sentMessages (handleWsMessage sampleState (WsMsgIn.offer "sdp0") envRemoteThrows).2 = [] :=
  ⟨rfl,
   ((claim_C7_amended_negotiation_errors_logged sampleState pcEmpty
       (WsMsgIn.offer "sdp0") envRemoteThrows envOk rfl).1 rfl).1,
   ((claim_C7_amended_negotiation_errors_logged sampleState pcEmpty
       (WsMsgIn.offer "sdp0") envRemoteThrows envOk rfl).1 rfl).2.1⟩

/-- C8 counterexample: with both buffers empty and no share ever active,
an inbound peerScreenShareStop is not a logged no-op — the
screen-share-stopped callback fires.  This refutes the claimed
log-and-take-no-action branch, which does not exist in the code. -/
theorem claim_C8_counterexample :
    (handleWsMessage sampleState (WsMsgIn.peerScreenShareStop "peer-9") envOk).2
      = [Effect.callback (Callback.onPeerScreenShareStopped "peer-9")] := rfl

/-- C8 as amended: on an inbound peerScreenShareStop the handler looks
the value of the message peerId field up in the two pending buffers: if
it is a key of PendingStreamBuffer, or else of PendingOwnershipBuffer,
that entry is removed and no callback fires; in every other case the
screen-share-stopped callback fires with that id, unconditionally — the
code tracks no active shares and logs no inconsistency. -/
theorem claim_C8_amended_stop_handling
    (st : MgrState) (p : PcState) (id : String) (env : NegEnv)
    (hpc : st.pc = some p) :
    (mhas st.pendingStreams id = true →
      (handleWsMessage st (WsMsgIn.peerScreenShareStop id) env).1
        = { st with pendingStreams := mdel st.pendingStreams id }
      ∧ (handleWsMessage st (WsMsgIn.peerScreenShareStop id) env).2 = [])
    ∧ (mhas st.pendingStreams id = false → mhas st.pendingScreenShareIds id = true →
      (handleWsMessage st (WsMsgIn.peerScreenShareStop id) env).1
        = { st with pendingScreenShareIds := mdel st.pendingScreenShareIds id }
      ∧ (handleWsMessage st (WsMsgIn.peerScreenShareStop id) env).2 = [])
    ∧ (mhas st.pendingStreams id = false → mhas st.pendingScreenShareIds id = false →
      (handleWsMessage st (WsMsgIn.peerScreenShareStop id) env).1 = st
      ∧ (handleWsMessage st (WsMsgIn.peerScreenShareStop id) env).2
          = [Effect.callback (Callback.onPeerScreenShareStopped id)]) := by
  refine ⟨fun h1 => ?_, fun h1 h2 => ?_, fun h1 h2 => ?_⟩ <;>
    simp [handleWsMessage, hpc, h1, *]

/-- A session state with one screen stream buffered and awaiting its
ownership announcement. -/
def stateWithBufferedStream : MgrState :=
  { sampleState with
    pendingStreams := mset (MapS.empty MediaStream) "screen-abc" sampleScreenStream }

/-- Witness for the amended C8: a buffered entry is removed silently. -/
theorem claim_C8_witness :
    mhas stateWithBufferedStream.pendingStreams "screen-abc" = true
    ∧ (handleWsMessage stateWithBufferedStream
        (WsMsgIn.peerScreenShareStop "screen-abc") envOk).2 = [] :=
  ⟨rfl,
   ((claim_C8_amended_stop_handling stateWithBufferedStream pcEmpty
       "screen-abc" envOk rfl).1 rfl).2⟩

/-- C1: from any state in which a screen streamId is buffered in neither
map, processing the stream arrival and the ownership announcement for
that id — in either order — fires onPeerScreenShare exactly once, with
the announced peerId and the very stream that arrived; it never fires
twice for the pair. -/
theorem claim_C1_screen_share_fires_once
    (st : MgrState) (m : MediaStream) (q : String) (env : NegEnv) (pcSt : PcState)
    (hpc : st.pc = some pcSt)
    (h1 : mget st.pendingStreams m.id = none)
    (h2 : mget st.pendingScreenShareIds m.id = none)
    (hscreen : containsScreen m.id = true) :
    screenShareFires ((handleTrack st [m]).2
        ++ (handleWsMessage (handleTrack st [m]).1
             (WsMsgIn.peerScreenShare m.id q) env).2)
      = [(q, m)]
    ∧ screenShareFires ((handleWsMessage st (WsMsgIn.peerScreenShare m.id q) env).2
        ++ (handleTrack (handleWsMessage st (WsMsgIn.peerScreenShare m.id q) env).1 [m]).2)
      = [(q, m)] := by
  have huuid := containsScreen_not_uuid hscreen
  constructor
  · simp [handleTrack, handleWsMessage, hpc, h1, h2, hscreen, huuid,
          mget_mset_self, screenShareFires_sendMessage]
  · simp [handleTrack, handleWsMessage, hpc, h1, h2, hscreen, huuid,
          mget_mset_self, screenShareFires_sendMessage]

/-- Witness for C1 in stream-before-announcement order. -/
theorem claim_C1_witness :
    sampleState.pc = some pcEmpty
    ∧ mget sampleState.pendingStreams sampleScreenStream.id = none
    ∧ mget sampleState.pendingScreenShareIds sampleScreenStream.id = none
    ∧ containsScreen sampleScreenStream.id = true
    ∧ screenShareFires ((handleTrack sampleState [sampleScreenStream]).2
        ++ (handleWsMessage (handleTrack sampleState [sampleScreenStream]).1
             (WsMsgIn.peerScreenShare sampleScreenStream.id "peerP") envOk).2)
      = [("peerP", sampleScreenStream)] :=
  ⟨rfl, rfl, rfl, by decide,
   (claim_C1_screen_share_fires_once sampleState sampleScreenStream "peerP" envOk
      pcEmpty rfl rfl rfl (by decide)).1⟩

/-- handleOffer never touches the two pending buffers. -/
theorem handleOffer_buffers (st : MgrState) (p : PcState) (sdp : String) (env : NegEnv) :
    (handleOffer st p sdp env).1.pendingStreams = st.pendingStreams
    ∧ (handleOffer st p sdp env).1.pendingScreenShareIds = st.pendingScreenShareIds := by
  by_cases h1 : env.setRemoteThrows
  · simp [handleOffer, h1]
  · by_cases h4 : env.transceiversAfterOffer.length ≥ 4 <;>
      by_cases h2 : env.createAnswerThrows <;>
        by_cases h3 : env.setLocalThrows <;>
          simp [handleOffer, h1, h2, h3, h4]

/-- Every single inbound event preserves buffer disjointness. -/
theorem stepInbound_disjoint (st : MgrState) (e : InboundEvent)
    (hd : BuffersDisjoint st) : BuffersDisjoint (stepInbound st e).1 := by
  cases e with
  | track streams =>
    show BuffersDisjoint (handleTrack st streams).1
    cases hh : streams.head? with
    | none => simp only [handleTrack, hh]; exact hd
    | some m =>
      simp only [handleTrack, hh]
      cases hg : mget st.pendingScreenShareIds m.id with
      | some q =>
        intro id
        by_cases hid : id = m.id
        · subst hid; exact Or.inr (mget_mdel_self _ _)
        · simpa [mget_mdel_ne _ _ _ hid] using hd id
      | none =>
        by_cases huuid : isValidUUID m.id
        · simp only [huuid, if_pos]; exact hd
        · by_cases hscr : containsScreen m.id
          · simp only [huuid, hscr, Bool.false_eq_true, if_neg, if_pos]
            intro id
            by_cases hid : id = m.id
            · subst hid; exact Or.inr hg
            · simpa [mget_mset_ne _ _ _ _ hid] using hd id
          · simp only [huuid, hscr, Bool.false_eq_true, if_neg]; exact hd
  | ws msg env =>
    show BuffersDisjoint (handleWsMessage st msg env).1
    cases hp : st.pc with
    | none => simp only [handleWsMessage, hp]; exact hd
    | some p =>
      cases msg with
      | offer sdp =>
        simp only [handleWsMessage, hp]
        intro id
        rw [(handleOffer_buffers st p sdp env).1, (handleOffer_buffers st p sdp env).2]
        exact hd id
      | answer sdp =>
        by_cases h1 : env.setRemoteThrows <;> simp only [handleWsMessage, hp, h1] <;>
          simpa using hd
      | candidate c =>
        by_cases h1 : env.addIceThrows <;> simp only [handleWsMessage, hp, h1] <;>
          simpa using hd
      | peerExit peerId peerName => simp only [handleWsMessage, hp]; exact hd
      | peerScreenShare sid qid =>
        simp only [handleWsMessage, hp]
        cases hg : mget st.pendingStreams sid with
        | some strm =>
          intro id
          by_cases hid : id = sid
          · subst hid; exact Or.inl (mget_mdel_self _ _)
          · simpa [mget_mdel_ne _ _ _ hid] using hd id
        | none =>
          intro id
          by_cases hid : id = sid
          · subst hid; exact Or.inl hg
          · simpa [mget_mset_ne _ _ _ _ hid] using hd id
      | peerScreenShareStop pid =>
        simp only [handleWsMessage, hp]
        by_cases hs : mhas st.pendingStreams pid
        · simp only [hs, if_pos]
          intro id
          by_cases hid : id = pid
          · subst hid; exact Or.inl (mget_mdel_self _ _)
          · simpa [mget_mdel_ne _ _ _ hid] using hd id
        · by_cases hi : mhas st.pendingScreenShareIds pid
          · simp only [hs, hi, Bool.false_eq_true, if_neg, if_pos]
            intro id
            by_cases hid : id = pid
            · subst hid; exact Or.inr (mget_mdel_self _ _)
            · simpa [mget_mdel_ne _ _ _ hid] using hd id
          · simp only [hs, hi, Bool.false_eq_true, if_neg]; exact hd
      | unknown t => simp only [handleWsMessage, hp]; exact hd

/-- Buffer disjointness is preserved by every inbound event sequence. -/
theorem runInbound_disjoint (es : List InboundEvent) (st : MgrState)
    (hd : BuffersDisjoint st) : BuffersDisjoint (runInbound st es) := by
  induction es generalizing st with
  | nil => exact hd
  | cons e es ih => exact ih (stepInbound st e).1 (stepInbound_disjoint st e hd)

/-- C2: from any buffer-disjoint state (as the fresh manager is), after
every sequence of inbound track events and signaling messages each
streamId is a key of at most one of pendingStreams and
pendingScreenShareIds; and the moment the second of the two correlating
facts for an id arrives, the id is removed from both maps. -/
theorem claim_C2_buffer_disjointness (st : MgrState) (hd : BuffersDisjoint st) :
    (∀ es, BuffersDisjoint (runInbound st es))
    ∧ (∀ m q, mget st.pendingScreenShareIds m.id = some q →
        mget (handleTrack st [m]).1.pendingStreams m.id = none
        ∧ mget (handleTrack st [m]).1.pendingScreenShareIds m.id = none)
    ∧ (∀ sid strm q env pcSt, st.pc = some pcSt →
        mget st.pendingStreams sid = some strm →
        mget (handleWsMessage st (WsMsgIn.peerScreenShare sid q) env).1.pendingStreams sid = none
        ∧ mget (handleWsMessage st (WsMsgIn.peerScreenShare sid q) env).1.pendingScreenShareIds sid = none) := by
  refine ⟨fun es => runInbound_disjoint es st hd, fun m q hg => ?_, fun sid strm q env pcSt hp hg => ?_⟩
  · have hstreams : mget st.pendingStreams m.id = none := by
      rcases hd m.id with h | h
      · exact h
      · rw [hg] at h; cases h
    constructor
    · simp [handleTrack, hg, hstreams]
    · simp [handleTrack, hg, mget_mdel_self]
  · have hids : mget st.pendingScreenShareIds sid = none := by
      rcases hd sid with h | h
      · rw [hg] at h; cases h
      · exact h
    constructor
    · simp [handleWsMessage, hp, hg, mget_mdel_self]
    · simp [handleWsMessage, hp, hg, hids]

/-- Witness for C2: correlation at a state holding one buffered stream. -/
theorem claim_C2_witness :
    mget stateWithBufferedStream.pendingStreams "screen-abc" = some sampleScreenStream
    ∧ mget (handleWsMessage stateWithBufferedStream
        (WsMsgIn.peerScreenShare "screen-abc" "peerP") envOk).1.pendingStreams "screen-abc" = none
    ∧ mget (handleWsMessage stateWithBufferedStream
        (WsMsgIn.peerScreenShare "screen-abc" "peerP") envOk).1.pendingScreenShareIds "screen-abc" = none :=
  ⟨rfl,
   ((claim_C2_buffer_disjointness stateWithBufferedStream (fun _ => Or.inr rfl)).2.2
      "screen-abc" sampleScreenStream "peerP" envOk pcEmpty rfl rfl).1,
   ((claim_C2_buffer_disjointness stateWithBufferedStream (fun _ => Or.inr rfl)).2.2
      "screen-abc" sampleScreenStream "peerP" envOk pcEmpty rfl rfl).2⟩

/-- C5: a successful inbound offer with the connection live and the
channel open produces exactly one envelope: the answer, carrying the
session clientId and roomId; and in the effect trace the
onnegotiationneeded handler is installed only after that answer was sent
(nothing was sent before it). -/
theorem claim_C5_offer_single_answer
    (st : MgrState) (p : PcState) (w : WsState) (sdp : String) (env : NegEnv)
    (hpc : st.pc = some p) (hw : st.ws = some w)
    (hopen : w.readyState = ReadyState.opened)
    (h1 : env.setRemoteThrows = false) (h2 : env.createAnswerThrows = false)
    (h3 : env.setLocalThrows = false) :
    sentMessages (handleWsMessage st (WsMsgIn.offer sdp) env).2
      = [{ type := "answer", clientId := st.clientId, roomId := st.roomId,
           payload := [("type", "answer"), ("sdp", env.answerSdp)] }]
    ∧ ∃ l1, (handleWsMessage st (WsMsgIn.offer sdp) env).2
        = l1 ++ [Effect.send { type := "answer", clientId := st.clientId,
                               roomId := st.roomId,
                               payload := [("type", "answer"), ("sdp", env.answerSdp)] },
                 Effect.setNegotiationHandler]
        ∧ sentMessages l1 = [] := by
  by_cases h4 : env.transceiversAfterOffer.length ≥ 4
  · constructor
    · simp [handleWsMessage, handleOffer, hpc, hw, hopen, h1, h2, h3, h4, sendMessage]
    · refine ⟨[], ?_, rfl⟩
      simp [handleWsMessage, handleOffer, hpc, hw, hopen, h1, h2, h3, h4, sendMessage]
  · constructor
    · simp [handleWsMessage, handleOffer, hpc, hw, hopen, h1, h2, h3, h4, sendMessage]
    · refine ⟨[Effect.log "Expected at least 4 transceivers, no screen share transceivers stored"],
        ?_, rfl⟩
      simp [handleWsMessage, handleOffer, hpc, hw, hopen, h1, h2, h3, h4, sendMessage]

/-- Witness for C5 at a concrete offer exchange. -/
theorem claim_C5_witness :
    sampleState.pc = some pcEmpty
    ∧ sampleState.ws = some wsLive
    ∧ sentMessages (handleWsMessage sampleState (WsMsgIn.offer "sdp0") envFour).2
        = [{ type := "answer", clientId := "client1", roomId := "room1",
             payload := [("type", "answer"), ("sdp", "ansSdp")] }] :=
  ⟨rfl, rfl,
   (claim_C5_offer_single_answer sampleState pcEmpty wsLive "sdp0" envFour
      rfl rfl rfl rfl rfl rfl).1⟩

/-- Index lookup after setting a transceiver direction. -/
theorem getElem?_setDirectionAt (l : List Transceiver) (i : Nat)
    (d : TransDirection) (j : Nat) :
    (setDirectionAt l i d)[j]?
      = if j = i then (l[j]?).map (fun tr => { tr with direction := d })
        else l[j]? := by
  induction l generalizing i j with
  | nil => simp [setDirectionAt]
  | cons tr rest ih =>
    cases i with
    | zero =>
      cases j with
      | zero => simp [setDirectionAt]
      | succ j => simp [setDirectionAt]
    | succ i =>
      cases j with
      | zero => simp [setDirectionAt]
      | succ j => simpa [setDirectionAt] using ih i j

/-- Index lookup after replacing a sender track. -/
theorem getElem?_setSenderTrackAt (l : List Transceiver) (i : Nat)
    (t : Option String) (j : Nat) :
    (setSenderTrackAt l i t)[j]?
      = if j = i then (l[j]?).map (fun tr => { tr with senderTrack := t })
        else l[j]? := by
  induction l generalizing i j with
  | nil => simp [setSenderTrackAt]
  | cons tr rest ih =>
    cases i with
    | zero =>
      cases j with
      | zero => simp [setSenderTrackAt]
      | succ j => simp [setSenderTrackAt]
    | succ i =>
      cases j with
      | zero => simp [setSenderTrackAt]
      | succ j => simpa [setSenderTrackAt] using ih i j

/-- The state produced by a successful offer with at least four
transceivers: remote description applied, indices 2/3 marked sendonly and
stored, answer set locally, negotiation handler installed. -/
theorem handleOffer_state_ge4 (st : MgrState) (p : PcState) (sdp : String)
    (env : NegEnv)
    (h1 : env.setRemoteThrows = false) (h2 : env.createAnswerThrows = false)
    (h3 : env.setLocalThrows = false)
    (h4 : env.transceiversAfterOffer.length ≥ 4) :
    (handleOffer st p sdp env).1
      = { st with
          pc := some
            { transceivers :=
                setDirectionAt (setDirectionAt env.transceiversAfterOffer 3
                  TransDirection.sendonly) 2 TransDirection.sendonly,
              localDescription := some env.answerSdp,
              remoteDescription := some sdp,
              negotiationHandlerInstalled := true,
              iceCandidates := p.iceCandidates },
          screenShareVideoTransceiver := some 2,
          screenShareAudioTransceiver := some 3 } := by
  simp [handleOffer, h1, h2, h3, h4]

/-- The state produced by a successful offer with fewer than four
transceivers: no screen-share transceivers are stored. -/
theorem handleOffer_state_lt4 (st : MgrState) (p : PcState) (sdp : String)
    (env : NegEnv)
    (h1 : env.setRemoteThrows = false) (h2 : env.createAnswerThrows = false)
    (h3 : env.setLocalThrows = false)
    (h4 : ¬ env.transceiversAfterOffer.length ≥ 4) :
    (handleOffer st p sdp env).1
      = { st with
          pc := some
            { transceivers := env.transceiversAfterOffer,
              localDescription := some env.answerSdp,
              remoteDescription := some sdp,
              negotiationHandlerInstalled := true,
              iceCandidates := p.iceCandidates } } := by
  simp [handleOffer, h1, h2, h3, h4]

/-- C6: after a successful inbound offer.  With at least 4 transceivers,
indices 2 and 3 are stored as the screen-share transceivers and set to
direction sendonly, and startScreenShare replaces the sender track of
exactly the index-2 transceiver, leaving every other index untouched.
With fewer than 4 (starting from a fresh session with nothing stored),
nothing is stored, and every subsequent startScreenShare call returns
(the function is total, so nothing is thrown) with the state unchanged
and only the logged error — no envelope, in particular no
screenShareRequest. -/
theorem claim_C6_transceiver_contract
    (st : MgrState) (p : PcState) (sdp : String) (env : NegEnv)
    (hpc : st.pc = some p)
    (h1 : env.setRemoteThrows = false) (h2 : env.createAnswerThrows = false)
    (h3 : env.setLocalThrows = false) :
    (env.transceiversAfterOffer.length ≥ 4 →
      (handleWsMessage st (WsMsgIn.offer sdp) env).1.screenShareVideoTransceiver = some 2
      ∧ (handleWsMessage st (WsMsgIn.offer sdp) env).1.screenShareAudioTransceiver = some 3
      ∧ ∃ p', (handleWsMessage st (WsMsgIn.offer sdp) env).1.pc = some p'
          ∧ (p'.transceivers[2]?).map Transceiver.direction = some TransDirection.sendonly
          ∧ (p'.transceivers[3]?).map Transceiver.direction = some TransDirection.sendonly
          ∧ (∀ strm paramsFail,
              ∃ p2, (startScreenShare (handleWsMessage st (WsMsgIn.offer sdp) env).1
                       strm paramsFail).1.pc = some p2
                ∧ p2.transceivers[2]?
                    = (p'.transceivers[2]?).map
                        (fun tr => { tr with senderTrack := strm.videoTracks.head? })
                ∧ ∀ j, j ≠ 2 → p2.transceivers[j]? = p'.transceivers[j]?))
    ∧ (¬ env.transceiversAfterOffer.length ≥ 4 →
      st.screenShareVideoTransceiver = none →
      st.screenShareAudioTransceiver = none →
      (handleWsMessage st (WsMsgIn.offer sdp) env).1.screenShareVideoTransceiver = none
      ∧ (handleWsMessage st (WsMsgIn.offer sdp) env).1.screenShareAudioTransceiver = none
      ∧ ∀ strm paramsFail,
          startScreenShare (handleWsMessage st (WsMsgIn.offer sdp) env).1 strm paramsFail
            = ((handleWsMessage st (WsMsgIn.offer sdp) env).1,
               [Effect.log "No screen share video transceiver available"])) := by
  constructor
  · intro h4
    have hres : (handleWsMessage st (WsMsgIn.offer sdp) env).1
        = { st with
            pc := some
              { transceivers :=
                  setDirectionAt (setDirectionAt env.transceiversAfterOffer 3
                    TransDirection.sendonly) 2 TransDirection.sendonly,
                localDescription := some env.answerSdp,
                remoteDescription := some sdp,
                negotiationHandlerInstalled := true,
                iceCandidates := p.iceCandidates },
            screenShareVideoTransceiver := some 2,
            screenShareAudioTransceiver := some 3 } := by
      simp only [handleWsMessage, hpc]
      exact handleOffer_state_ge4 st p sdp env h1 h2 h3 h4
    obtain ⟨tr2, htr2⟩ : ∃ tr2, env.transceiversAfterOffer[2]? = some tr2 :=
      ⟨_, List.getElem?_eq_getElem (by omega)⟩
    obtain ⟨tr3, htr3⟩ : ∃ tr3, env.transceiversAfterOffer[3]? = some tr3 :=
      ⟨_, List.getElem?_eq_getElem (by omega)⟩
    rw [hres]
    refine ⟨rfl, rfl, _, rfl, ?_, ?_, ?_⟩
    · rw [getElem?_setDirectionAt, if_pos rfl, getElem?_setDirectionAt,
        if_neg (by omega), htr2]
      rfl
    · rw [getElem?_setDirectionAt, if_neg (by omega), getElem?_setDirectionAt,
        if_pos rfl, htr3]
      rfl
    · intro strm paramsFail
      refine ⟨_, rfl, ?_, ?_⟩
      · show (setSenderTrackAt _ 2 _)[2]? = _
        rw [getElem?_setSenderTrackAt, if_pos rfl]
      · intro j hj
        show (setSenderTrackAt _ 2 _)[j]? = _
        rw [getElem?_setSenderTrackAt, if_neg hj]
  · intro h4 hv ha
    have hres : (handleWsMessage st (WsMsgIn.offer sdp) env).1
        = { st with
            pc := some
              { transceivers := env.transceiversAfterOffer,
                localDescription := some env.answerSdp,
                remoteDescription := some sdp,
                negotiationHandlerInstalled := true,
                iceCandidates := p.iceCandidates } } := by
      simp only [handleWsMessage, hpc]
      exact handleOffer_state_lt4 st p sdp env h1 h2 h3 h4
    rw [hres]
    refine ⟨hv, ha, fun strm paramsFail => ?_⟩
    simp [startScreenShare, hv]

/-- Witness for C6 at a concrete four-transceiver offer. -/
theorem claim_C6_witness :
    fourTransceivers.length ≥ 4
    ∧ (handleWsMessage sampleState (WsMsgIn.offer "sdp0") envFour).1.screenShareVideoTransceiver
        = some 2
    ∧ (handleWsMessage sampleState (WsMsgIn.offer "sdp0") envFour).1.screenShareAudioTransceiver
        = some 3 :=
  ⟨by decide,
   ((claim_C6_transceiver_contract sampleState pcEmpty "sdp0" envFour
       rfl rfl rfl rfl).1 (by decide)).1,
   ((claim_C6_transceiver_contract sampleState pcEmpty "sdp0" envFour
       rfl rfl rfl rfl).1 (by decide)).2.1⟩

end BridgeWeb
